import Mathlib

set_option autoImplicit false

namespace RoleVerse

/- ===================================================================
   Generic helpers: association lists standing for Python dicts keyed
   by string identifiers (session ids, conversation ids, ...).
   =================================================================== -/

/-- Lookup in an association list, mirroring a Python `dict[key]` /
`key in dict` access. -/
def lookupA {β : Type} (k : String) : List (String × β) → Option β
  | [] => none
  | p :: rest => if p.1 = k then some p.2 else lookupA k rest

/-- Removal of a key, mirroring Python `del dict[key]`. -/
def removeA {β : Type} (k : String) (l : List (String × β)) : List (String × β) :=
  l.filter (fun p => p.1 ≠ k)

/-- In-place update of a key's value, mirroring Python `dict[key] = v`. -/
def setA {β : Type} (k : String) (v : β) : List (String × β) → List (String × β)
  | [] => [(k, v)]
  | p :: rest => if p.1 = k then (k, v) :: rest else p :: setA k v rest

theorem lookupA_removeA {β : Type} (k : String) (l : List (String × β)) :
    lookupA k (removeA k l) = none := by
  induction l with
  | nil => rfl
  | cons p rest ih =>
    by_cases h : p.1 = k
    · simpa [removeA, h] using ih
    · simpa [removeA, List.filter, h, lookupA] using ih

theorem lookupA_setA {β : Type} (k : String) (v : β) (l : List (String × β)) :
    lookupA k (setA k v l) = some v := by
  induction l with
  | nil => simp [setA, lookupA]
  | cons p rest ih =>
    by_cases h : p.1 = k
    · simp [setA, h, lookupA]
    · simp [setA, h, lookupA, ih]

/-- A nonempty string stays nonempty after appending on the right. -/
theorem append_ne_empty_left {a : String} (b : String) (h : a ≠ "") :
    a ++ b ≠ "" := by
  intro hab
  apply h
  have hd : a.data ++ b.data = ([] : List Char) := by
    simpa using congrArg String.data hab
  rcases List.append_eq_nil.mp hd with ⟨h1, _⟩
  exact String.ext (by simpa using h1)

/- ===================================================================
   Transcript accumulator:
   `RecognitionCallbackHandler.on_event` in
   backend/services/audio_service.py, lines 207-244.
   =================================================================== -/

/-- One sentence dict delivered by the recognition stream: the handler
reads `sentence.get('end_time')` (present exactly on final results) and
`sentence.get('text', '')`. -/
structure Sentence where
  endTime : Option Nat
  text : String
  deriving DecidableEq

/-- Payload of `result.get_sentence()`: the handler only acts when it is
a dict; any other shape is ignored. -/
inductive RecognitionPayload where
  | dict (s : Sentence)
  | other
  deriving DecidableEq

/-- One entry of `AudioService.active_sessions` (audio_service.py,
lines 262-271).  `recognition_instance` is the stream handle if one was
bound; `created_at` abstracts the wall-clock timestamp. -/
structure SessionData where
  user_id : String
  character_id : String
  conversation_id : Option String
  created_at : Nat
  active : Bool
  recognized_text : String
  recognition_instance : Option Nat
  deriving DecidableEq

/-- The mutable maps held by `AudioService`: `active_sessions` keyed by
session id, and the key set of `recognition_callbacks` (the handler
objects themselves are modelled separately by their `final_text`). -/
structure AudioState where
  active_sessions : List (String × SessionData)
  recognition_callbacks : List String
  deriving DecidableEq

/-- Truthiness of Python `text.strip()`: the stripped string is
nonempty exactly when `text` is not all whitespace. -/
def isBlank (s : String) : Bool :=
  s.data.all Char.isWhitespace

/-- `RecognitionCallbackHandler.on_event` (audio_service.py 222-244):
on a dict sentence whose `end_time` is present and whose text is
non-blank after stripping, append the text to `final_text` (space
separated once `final_text` is nonempty) and mirror the accumulated
value into the session's `recognized_text` when the session is still
registered; interim results and blank texts are ignored.  Returns the
handler's new `final_text` together with the updated service state. -/
def on_event (final_text : String) (st : AudioState) (session_id : String)
    (r : RecognitionPayload) : String × AudioState :=
  match r with
  | .other => (final_text, st)
  | .dict s =>
    match s.endTime with
    | some _ =>
      let text := s.text
      if !isBlank text then
        let ft := if final_text ≠ "" then final_text ++ " " ++ text else text
        let st' :=
          match lookupA session_id st.active_sessions with
          | some sd =>
            let sd' := { sd with recognized_text := ft }
            { st with active_sessions := setA session_id sd' st.active_sessions }
          | none => st
        (ft, st')
      else
        (final_text, st)
    | none => (final_text, st)

/-- Delivery, in order, of a sequence of recognition events to one
handler. -/
def run_events (final_text : String) (st : AudioState) (session_id : String) :
    List RecognitionPayload → String × AudioState
  | [] => (final_text, st)
  | r :: rs =>
    let p := on_event final_text st session_id r
    run_events p.1 p.2 session_id rs

/-- The text a payload contributes to the accumulated transcript:
`some` exactly for dict sentences that are final (`end_time` present)
and non-blank after trimming. -/
def final_fragment_text (r : RecognitionPayload) : Option String :=
  match r with
  | .dict s => if s.endTime.isSome ∧ isBlank s.text = false then some s.text else none
  | .other => none

/-- Space-joined concatenation of a list of strings, as the spec words
it. -/
def spaceJoin : List String → String
  | [] => ""
  | [t] => t
  | t :: ts => t ++ " " ++ spaceJoin ts

/-- The tail shape of a space join: each further fragment contributes a
single space and its text. -/
def joinTail : List String → String
  | [] => ""
  | t :: ts => " " ++ t ++ joinTail ts

theorem spaceJoin_cons (t : String) (ts : List String) :
    spaceJoin (t :: ts) = t ++ joinTail ts := by
  induction ts generalizing t with
  | nil => simp [spaceJoin, joinTail]
  | cons u us ih =>
    show spaceJoin (t :: u :: us) = t ++ joinTail (u :: us)
    rw [show spaceJoin (t :: u :: us) = t ++ " " ++ spaceJoin (u :: us) from rfl, ih]
    simp [joinTail, String.append_assoc]

/-- The single-event accumulation step on the handler's `final_text`. -/
def accum_step (a t : String) : String :=
  if a ≠ "" then a ++ " " ++ t else t

theorem on_event_fst (final_text : String) (st : AudioState) (session_id : String)
    (r : RecognitionPayload) :
    (on_event final_text st session_id r).1 =
      match final_fragment_text r with
      | some t => accum_step final_text t
      | none => final_text := by
  cases r with
  | other => rfl
  | dict s =>
    cases h : s.endTime with
    | none => simp [on_event, final_fragment_text, h]
    | some e =>
      cases ht : isBlank s.text
      · simp [on_event, final_fragment_text, h, ht, accum_step]
      · simp [on_event, final_fragment_text, h, ht]

theorem run_events_fst (session_id : String) (evs : List RecognitionPayload) :
    ∀ (st : AudioState) (final_text : String),
      (run_events final_text st session_id evs).1 =
        (evs.filterMap final_fragment_text).foldl accum_step final_text := by
  induction evs with
  | nil => intro st ft; rfl
  | cons r rs ih =>
    intro st ft
    have hr := on_event_fst ft st session_id r
    cases h : final_fragment_text r with
    | none =>
      rw [h] at hr
      simp only [run_events, List.filterMap_cons, h]
      rw [ih, hr]
    | some t =>
      rw [h] at hr
      simp only [run_events, List.filterMap_cons, h, List.foldl_cons]
      rw [ih, hr]

theorem foldl_accum_step_ne (ts : List String) :
    ∀ a : String, a ≠ "" → ts.foldl accum_step a = a ++ joinTail ts := by
  induction ts with
  | nil => intro a _; simp [joinTail]
  | cons t ts ih =>
    intro a ha
    have hstep : accum_step a t = a ++ " " ++ t := by simp [accum_step, ha]
    have hne : a ++ " " ++ t ≠ "" :=
      append_ne_empty_left t (append_ne_empty_left " " ha)
    rw [List.foldl_cons, hstep, ih _ hne]
    simp [joinTail, String.append_assoc]

theorem ne_empty_of_not_blank {t : String} (h : isBlank t = false) : t ≠ "" := by
  intro h0
  rw [h0] at h
  simp [isBlank] at h

theorem foldl_accum_step_spaceJoin (ts : List String) (h : ∀ t ∈ ts, t ≠ "") :
    ts.foldl accum_step "" = spaceJoin ts := by
  cases ts with
  | nil => rfl
  | cons t ts =>
    have hstep : accum_step "" t = t := by simp [accum_step]
    rw [List.foldl_cons, hstep, foldl_accum_step_ne ts t (h t (by simp)),
      spaceJoin_cons]

theorem mem_filterMap_final_ne (evs : List RecognitionPayload) :
    ∀ t ∈ evs.filterMap final_fragment_text, t ≠ "" := by
  intro t ht
  rcases List.mem_filterMap.mp ht with ⟨r, _, hr⟩
  cases r with
  | other => simp [final_fragment_text] at hr
  | dict s =>
    by_cases hc : s.endTime.isSome ∧ isBlank s.text = false
    · have : s.text = t := by simpa [final_fragment_text, hc] using hr
      exact this ▸ ne_empty_of_not_blank hc.2
    · simp [final_fragment_text, hc] at hr

/-- Claim C1: for every sequence of transcript events delivered to one
recognition session's callback handler, the accumulated `final_text`
equals the space-joined concatenation of exactly those event texts that
are final (`end_time` present) and non-blank after trimming, in
delivery order; interim or whitespace-only events contribute nothing. -/
theorem c1_transcript_accumulator (st : AudioState) (session_id : String)
    (evs : List RecognitionPayload) :
    (run_events "" st session_id evs).1 =
      spaceJoin (evs.filterMap final_fragment_text) := by
  rw [run_events_fst session_id evs st ""]
  exact foldl_accum_step_spaceJoin _ (mem_filterMap_final_ne evs)

/-- Claim C8: the accumulated text is monotone under every transcript
event — the previous accumulated text is a prefix of the new one (the
handler only ever appends). -/
theorem c8_accumulated_text_monotone (final_text : String) (st : AudioState)
    (session_id : String) (r : RecognitionPayload) :
    ∃ t : String, (on_event final_text st session_id r).1 = final_text ++ t := by
  rw [on_event_fst]
  cases h : final_fragment_text r with
  | none => exact ⟨"", by simp⟩
  | some t =>
    by_cases ha : final_text = ""
    · exact ⟨t, by simp [accum_step, ha]⟩
    · exact ⟨" " ++ t, by simp [accum_step, ha, String.append_assoc]⟩

/- ===================================================================
   Session registry operations:
   `AudioService.stop_real_time_speech_recognition` (audio_service.py
   291-344) and `AudioService.process_audio_stream` (346-400).
   =================================================================== -/

/-- The result dict of `stop_real_time_speech_recognition`. -/
structure StopResult where
  success : Bool
  text : Option String
  error : Option String
  deriving DecidableEq

/-- `AudioService.stop_real_time_speech_recognition` (audio_service.py
291-344).  `stream_stop_raises` says whether the underlying
`recognition.stop()` call raises; that exception is caught and logged
(line 315-318), so it alters neither the result nor the state.  The
final `Nat` counts how many times `recognition.stop()` was invoked.
The `except KeyError` arm (334-338) is unreachable here: the only keyed
accesses are guarded by membership tests. -/
def stop_real_time_speech_recognition (st : AudioState) (session_id : String)
    (stream_stop_raises : Bool) : StopResult × AudioState × Nat :=
  match lookupA session_id st.active_sessions with
  | some sd =>
    let final_text := sd.recognized_text
    let stop_calls := if sd.recognition_instance.isSome then 1 else 0
    let st1 : AudioState :=
      { active_sessions := removeA session_id st.active_sessions,
        recognition_callbacks := st.recognition_callbacks.filter (fun k => k ≠ session_id) }
    ({ success := true, text := some final_text, error := none }, st1, stop_calls)
  | none =>
    let st1 : AudioState :=
      { st with recognition_callbacks := st.recognition_callbacks.filter (fun k => k ≠ session_id) }
    ({ success := true, text := some "", error := none }, st1, 0)

/-- The result dict of `process_audio_stream`. -/
structure FeedResult where
  success : Bool
  error : Option String
  deriving DecidableEq

/-- `AudioService.process_audio_stream` (audio_service.py 346-400).
`send_error` carries the message of an exception raised while
converting or sending the audio frame (caught at 395-400); `none` means
the send succeeded. -/
def process_audio_stream (st : AudioState) (session_id : String)
    (audio_data : List Int) (send_error : Option String) : FeedResult :=
  match lookupA session_id st.active_sessions with
  | none => { success := false, error := some "会话不存在" }
  | some sd =>
    if !sd.active then
      { success := false, error := some "会话已停止" }
    else
      match sd.recognition_instance with
      | none => { success := false, error := some "识别实例不存在" }
      | some _ =>
        match send_error with
        | some e => { success := false, error := some e }
        | none => { success := true, error := none }

/-- Claim C3: stopping a session id that is not in `active_sessions`
returns a success result whose text is the empty string — never an
error. -/
theorem c3_stop_unknown_session (st : AudioState) (session_id : String)
    (stream_stop_raises : Bool)
    (h : lookupA session_id st.active_sessions = none) :
    (stop_real_time_speech_recognition st session_id stream_stop_raises).1 =
      { success := true, text := some "", error := none } := by
  simp [stop_real_time_speech_recognition, h]

/-- Witness for C3 at a concrete empty registry. -/
theorem c3_stop_unknown_session_witness :
    (stop_real_time_speech_recognition ⟨[], []⟩ "missing" false).1 =
      { success := true, text := some "", error := none } :=
  c3_stop_unknown_session ⟨[], []⟩ "missing" false rfl

/-- Claim C4: stopping the same session id twice is idempotent — the
second call returns empty-text success and performs zero
`recognition.stop()` invocations (so the handle is never released a
second time). -/
theorem c4_stop_idempotent (st : AudioState) (session_id : String) (b1 b2 : Bool) :
    (stop_real_time_speech_recognition
        (stop_real_time_speech_recognition st session_id b1).2.1 session_id b2).1 =
      { success := true, text := some "", error := none } ∧
    (stop_real_time_speech_recognition
        (stop_real_time_speech_recognition st session_id b1).2.1 session_id b2).2.2 = 0 := by
  cases h : lookupA session_id st.active_sessions with
  | none => simp [stop_real_time_speech_recognition, h]
  | some sd => simp [stop_real_time_speech_recognition, h, lookupA_removeA]

/-- Claim C9: for a registered session, stop removes the session from
both `active_sessions` and `recognition_callbacks` and returns the
accumulated text as a success result, even when the underlying
`recognition.stop()` raises. -/
theorem c9_stop_cleans_up_despite_stream_error (st : AudioState) (session_id : String)
    (sd : SessionData) (stream_stop_raises : Bool)
    (h : lookupA session_id st.active_sessions = some sd) :
    (stop_real_time_speech_recognition st session_id stream_stop_raises).1 =
      { success := true, text := some sd.recognized_text, error := none } ∧
    lookupA session_id
        (stop_real_time_speech_recognition st session_id stream_stop_raises).2.1.active_sessions =
      none ∧
    session_id ∉
      (stop_real_time_speech_recognition st session_id stream_stop_raises).2.1.recognition_callbacks := by
  refine ⟨?_, ?_, ?_⟩
  · simp [stop_real_time_speech_recognition, h]
  · simp [stop_real_time_speech_recognition, h, lookupA_removeA]
  · simp [stop_real_time_speech_recognition, h, List.mem_filter]

/-- Witness for C9 at a concrete registry holding one session whose
stream's stop raises. -/
theorem c9_stop_cleans_up_witness :
    (stop_real_time_speech_recognition
        ⟨[("s", ⟨"u", "c", none, 0, true, "hello world", some 0⟩)], ["s"]⟩ "s" true).1 =
      { success := true, text := some "hello world", error := none } ∧
    lookupA "s"
        (stop_real_time_speech_recognition
          ⟨[("s", ⟨"u", "c", none, 0, true, "hello world", some 0⟩)], ["s"]⟩ "s" true).2.1.active_sessions =
      none ∧
    "s" ∉
      (stop_real_time_speech_recognition
          ⟨[("s", ⟨"u", "c", none, 0, true, "hello world", some 0⟩)], ["s"]⟩ "s" true).2.1.recognition_callbacks :=
  c9_stop_cleans_up_despite_stream_error
    ⟨[("s", ⟨"u", "c", none, 0, true, "hello world", some 0⟩)], ["s"]⟩ "s"
    ⟨"u", "c", none, 0, true, "hello world", some 0⟩ true rfl

/-- Counterexample to claim C5 as stated: after `stop`, the session is
removed from the registry, so feeding audio to the stopped session
yields the session-not-found error, not the session-not-active one. -/
theorem c5_feed_after_stop_counterexample :
    process_audio_stream
        (stop_real_time_speech_recognition
          ⟨[("s", ⟨"u", "c", none, 0, true, "", some 0⟩)], ["s"]⟩ "s" false).2.1
        "s" [] none =
      { success := false, error := some "会话不存在" } ∧
    ("会话不存在" : String) ≠ "会话已停止" := by
  constructor
  · rfl
  · decide

/-- Amended claim C5: a session id absent from the registry (which is
what a stopped session becomes) is rejected with the
session-not-found error, while a session still present but flagged
inactive is rejected with the session-not-active error. -/
theorem c5_feed_rejection_amended (st : AudioState) (session_id : String)
    (audio_data : List Int) (send_error : Option String) :
    (lookupA session_id st.active_sessions = none →
      process_audio_stream st session_id audio_data send_error =
        { success := false, error := some "会话不存在" }) ∧
    (∀ sd : SessionData, lookupA session_id st.active_sessions = some sd →
      sd.active = false →
      process_audio_stream st session_id audio_data send_error =
        { success := false, error := some "会话已停止" }) := by
  constructor
  · intro h
    simp [process_audio_stream, h]
  · intro sd h ha
    simp [process_audio_stream, h, ha]

/-- Witness for the amended C5 at concrete registries. -/
theorem c5_feed_rejection_witness :
    process_audio_stream ⟨[], []⟩ "x" [] none =
      { success := false, error := some "会话不存在" } ∧
    process_audio_stream ⟨[("x", ⟨"u", "c", none, 0, false, "", none⟩)], []⟩ "x" [] none =
      { success := false, error := some "会话已停止" } :=
  ⟨(c5_feed_rejection_amended ⟨[], []⟩ "x" [] none).1 rfl,
   (c5_feed_rejection_amended ⟨[("x", ⟨"u", "c", none, 0, false, "", none⟩)], []⟩ "x" [] none).2
     ⟨"u", "c", none, 0, false, "", none⟩ rfl rfl⟩

/- ===================================================================
   Conversation data model (backend/models/data_models.py) and the
   conversation service (backend/services/conversation_service.py).
   Wall-clock datetimes are abstracted as naturals; `metadata` dicts as
   string association lists.
   =================================================================== -/

/-- `MessageRole` (data_models.py 6-10). -/
inductive MessageRole where
  | user
  | assistant
  | system
  deriving DecidableEq

/-- `MessageType` (data_models.py 12-15). -/
inductive MessageType where
  | text
  | audio
  | image
  deriving DecidableEq

/-- `Message` (data_models.py 40-49). -/
structure Message where
  message_id : String
  conversation_id : String
  role : MessageRole
  content : String
  message_type : MessageType
  audio_url : Option String
  metadata : List (String × String)
  timestamp : Nat
  deriving DecidableEq

/-- `Conversation` (data_models.py 51-61). -/
structure Conversation where
  conversation_id : String
  user_id : String
  character_id : String
  title : String
  messages : List Message
  created_at : Nat
  updated_at : Nat
  is_active : Bool
  metadata : List (String × String)
  deriving DecidableEq

/-- The fields of `Character` (data_models.py 28-38) that the
conversation service reads. -/
structure Character where
  character_id : String
  name : String
  description : String
  avatar_url : Option String
  prompt_template : String
  deriving DecidableEq

/-- `ChatRequest` (data_models.py 75-81). -/
structure ChatRequest where
  user_id : String
  character_id : String
  conversation_id : Option String
  message : String
  message_type : MessageType
  deriving DecidableEq

/-- `ChatResponse` (data_models.py 83-90). -/
structure ChatResponse where
  conversation_id : String
  message_id : String
  response : String
  audio_url : Option String
  character_avatar_url : Option String
  timestamp : Nat
  deriving DecidableEq

/-- One role-tagged message sent to the chat-completion service. -/
structure ChatMsg where
  role : String
  content : String
  deriving DecidableEq

/-- The slice of the Redis record store the conversation service
touches: conversations keyed by id, plus the per-user and
per-character conversation-id lists. -/
structure Store where
  convs : List (String × Conversation)
  user_convs : List (String × List String)
  char_convs : List (String × List String)
  deriving DecidableEq

/-- `ConversationService.get_conversation` (conversation_service.py
104-129): a Redis fetch plus a lossless serialization round trip. -/
def get_conversation (store : Store) (conversation_id : String) : Option Conversation :=
  lookupA conversation_id store.convs

/-- `redis_client.list_push` with its default `left=True` (lpush):
prepends the value to the named list. -/
def list_push (l : List (String × List String)) (key value : String) :
    List (String × List String) :=
  setA key (value :: (lookupA key l).getD []) l

/-- `ConversationService.create_conversation` (conversation_service.py
23-102).  `fresh_id` is the generated uuid, `now` the wall clock and
`redis_ok` the success of the `set_data` write.  Returns the new
conversation id or the raised error message, with the updated store. -/
def create_conversation (store : Store) (characters : List (String × Character))
    (user_id character_id : String) (title : Option String)
    (fresh_id : String) (now : Nat) (redis_ok : Bool) :
    Except String String × Store :=
  match lookupA character_id characters with
  | none => (.error "角色不存在", store)
  | some character =>
    let title :=
      match title with
      | some t => if t = "" then "与" ++ character.name ++ "的对话" else t
      | none => "与" ++ character.name ++ "的对话"
    let conversation : Conversation :=
      { conversation_id := fresh_id, user_id := user_id, character_id := character_id,
        title := title, messages := [], created_at := now, updated_at := now,
        is_active := true, metadata := [] }
    if redis_ok then
      (.ok fresh_id,
        { convs := setA fresh_id conversation store.convs,
          user_convs := list_push store.user_convs user_id fresh_id,
          char_convs := list_push store.char_convs character_id fresh_id })
    else
      (.error "对话创建失败", store)

/-- `ConversationService.add_message` (conversation_service.py
131-170): fetch the conversation, append a freshly built message,
refresh `updated_at`, save.  `save_ok` is the success of the Redis
write (its boolean result is ignored by the source, which returns the
message regardless). -/
def add_message (store : Store) (conversation_id : String) (role : MessageRole)
    (content : String) (message_type : MessageType) (audio_url : Option String)
    (metadata : Option (List (String × String))) (fresh_id : String) (now : Nat)
    (save_ok : Bool) : Option Message × Store :=
  match get_conversation store conversation_id with
  | none => (none, store)
  | some conversation =>
    let message : Message :=
      { message_id := fresh_id, conversation_id := conversation_id, role := role,
        content := content, message_type := message_type, audio_url := audio_url,
        metadata := metadata.getD [], timestamp := now }
    let conversation' :=
      { conversation with messages := conversation.messages ++ [message],
                          updated_at := now }
    (some message,
      if save_ok then { store with convs := setA conversation_id conversation' store.convs }
      else store)

/-- The enhanced system prompt built by `_build_chat_messages`
(conversation_service.py 276-284): the persona prompt template followed
by the fixed behaviour guidelines. -/
def enhanced_prompt (character : Character) : String :=
  character.prompt_template ++
    "\n\n重要行为准则：\n1. 严格保持角色身份，绝不透露你是AI助手\n2. 仔细阅读前面的对话历史，确保回复与上下文相关\n3. 根据用户的具体问题给出针对性回答，避免答非所问\n4. 保持角色的语言风格和性格特征的一致性\n5. 如果用户提问不清楚，可以适当询问以获得更多信息\n6. 回复要自然流畅，符合角色的知识背景和经历"

/-- `ConversationService._build_chat_messages` (conversation_service.py
267-306): the enhanced system prompt followed by the most recent 20
entries of `conversation.messages` (Python `[-20:]`), keeping only
user and assistant messages. -/
def build_chat_messages (conversation : Conversation) (character : Character) :
    List ChatMsg :=
  let recent_messages := conversation.messages.drop (conversation.messages.length - 20)
  ⟨"system", enhanced_prompt character⟩ ::
    recent_messages.filterMap (fun m =>
      match m.role with
      | .user => some ⟨"user", m.content⟩
      | .assistant => some ⟨"assistant", m.content⟩
      | .system => none)

/-- The oracle results of the external calls one `chat` invocation
makes: generated uuids, wall-clock readings, Redis write successes, and
the chat-completion service's answer to a given message list. -/
structure ChatEnv where
  fresh_conversation_id : String
  fresh_user_message_id : String
  fresh_ai_message_id : String
  now_create : Nat
  now_user : Nat
  now_ai : Nat
  now_error : Nat
  redis_create_ok : Bool
  save_user_ok : Bool
  save_ai_ok : Bool
  chat_completion : List ChatMsg → Except String String

/-- The tail of `ConversationService.chat` (conversation_service.py
202-253) once the conversation is resolved: record the user message,
look up the character, build the context (from the pre-add snapshot
`conversation`, exactly as the source does), call completion, record
the assistant message, assemble the response.  Errors carry the raised
message and the store as mutated so far. -/
def chat_resolved (store : Store) (characters : List (String × Character))
    (env : ChatEnv) (request : ChatRequest) (conversation_id : String)
    (conversation : Option Conversation) :
    Except (String × Store) (ChatResponse × Store) :=
  match add_message store conversation_id .user request.message request.message_type
      none none env.fresh_user_message_id env.now_user env.save_user_ok with
  | (none, store2) => .error ("添加用户消息失败", store2)
  | (some _, store2) =>
    match lookupA request.character_id characters with
    | none => .error ("角色不存在", store2)
    | some character =>
      let messages :=
        match conversation with
        | some conversation => build_chat_messages conversation character
        | none => [⟨"system", character.prompt_template⟩]
      match env.chat_completion messages with
      | .error e => .error ("AI回复生成失败: " ++ e, store2)
      | .ok ai_content =>
        match add_message store2 conversation_id .assistant ai_content .text
            none none env.fresh_ai_message_id env.now_ai env.save_ai_ok with
        | (none, store3) => .error ("添加AI消息失败", store3)
        | (some ai_message, store3) =>
          .ok ({ conversation_id := conversation_id,
                 message_id := ai_message.message_id,
                 response := ai_content,
                 audio_url := none,
                 character_avatar_url := character.avatar_url,
                 timestamp := ai_message.timestamp }, store3)

/-- The `try` block of `ConversationService.chat` (conversation_service.py
182-253): resolve the requested conversation (a falsy — absent or
empty — `conversation_id` means none), create one when resolution
fails, then run the resolved pipeline. -/
def chat_attempt (store : Store) (characters : List (String × Character))
    (env : ChatEnv) (request : ChatRequest) :
    Except (String × Store) (ChatResponse × Store) :=
  let conversation0 : Option Conversation :=
    match request.conversation_id with
    | some cid => if cid = "" then none else get_conversation store cid
    | none => none
  match conversation0 with
  | some conversation =>
    chat_resolved store characters env request conversation.conversation_id
      (some conversation)
  | none =>
    match create_conversation store characters request.user_id request.character_id
        none env.fresh_conversation_id env.now_create env.redis_create_ok with
    | (.error e, store1) => .error (e, store1)
    | (.ok conversation_id, store1) =>
      chat_resolved store1 characters env request conversation_id
        (get_conversation store1 conversation_id)

/-- `ConversationService.chat` (conversation_service.py 172-265): the
`try` body, with the `except` arm turning any raised error into an
apologetic `ChatResponse` (lines 255-265). -/
def ConversationService.chat (store : Store) (characters : List (String × Character))
    (env : ChatEnv) (request : ChatRequest) : ChatResponse × Store :=
  match chat_attempt store characters env request with
  | .ok rs => rs
  | .error (e, store') =>
    ({ conversation_id := request.conversation_id.getD "",
       message_id := "",
       response := "抱歉，我现在无法回复。错误：" ++ e,
       audio_url := none,
       character_avatar_url := none,
       timestamp := env.now_error }, store')

/-- Claim C2: `chat` is total — every invocation yields a
`ChatResponse`; when the pipeline fails (including chat-completion
failure) the response text is the apology carrying the underlying
error description, and it is never empty. -/
theorem c2_chat_total_with_apology (store : Store)
    (characters : List (String × Character)) (env : ChatEnv) (request : ChatRequest) :
    (∃ rs, chat_attempt store characters env request = .ok rs ∧
      ConversationService.chat store characters env request = rs) ∨
    (∃ e store', chat_attempt store characters env request = .error (e, store') ∧
      (ConversationService.chat store characters env request).1.response =
        "抱歉，我现在无法回复。错误：" ++ e ∧
      (ConversationService.chat store characters env request).1.response ≠ "") := by
  cases h : chat_attempt store characters env request with
  | ok rs => exact Or.inl ⟨rs, rfl, by simp [ConversationService.chat, h]⟩
  | error p =>
    refine Or.inr ⟨p.1, p.2, ?_, ?_, ?_⟩
    · exact rfl
    · simp [ConversationService.chat, h]
    · simp only [ConversationService.chat, h]
      exact append_ne_empty_left _ (by decide)

/- ===================================================================
   Claims C7 (context window) and C10 (add_message frame).
   =================================================================== -/

/-- The wire name of a message role. -/
def role_string : MessageRole → String
  | .user => "user"
  | .assistant => "assistant"
  | .system => "system"

/-- The context list claim C7 predicts, following its words: the system
persona prompt followed by the most recent 20 turns of the history — a
turn being one user-input/assistant-reply exchange, i.e. two
messages. -/
def c7_claimed_context (conversation : Conversation) (character : Character) :
    List ChatMsg :=
  ⟨"system", enhanced_prompt character⟩ ::
    (conversation.messages.drop (conversation.messages.length - 40)).map
      (fun m => ⟨role_string m.role, m.content⟩)

/-- The i-th message of the C7 counterexample conversation: users speak
on even indices, the assistant answers on odd ones. -/
def c7_message (i : Nat) : Message :=
  { message_id := toString i, conversation_id := "c",
    role := if i % 2 = 0 then .user else .assistant,
    content := "m" ++ toString i, message_type := .text, audio_url := none,
    metadata := [], timestamp := i }

/-- A conversation of 22 messages, i.e. 11 complete turns. -/
def c7_conversation : Conversation :=
  { conversation_id := "c", user_id := "u", character_id := "ch", title := "t",
    messages := (List.range 22).map c7_message, created_at := 0, updated_at := 0,
    is_active := true, metadata := [] }

/-- A minimal persona. -/
def c7_character : Character :=
  { character_id := "ch", name := "角色", description := "d", avatar_url := none,
    prompt_template := "p" }

/-- Counterexample to claim C7 as stated: on a conversation of 11
turns (22 messages) the built context holds the system prompt plus
only 20 messages, not the 22 messages making up the most recent 20
turns. -/
theorem c7_context_window_counterexample :
    build_chat_messages c7_conversation c7_character ≠
      c7_claimed_context c7_conversation c7_character := by
  intro h
  have h1 : (build_chat_messages c7_conversation c7_character).length = 21 := by rfl
  have h2 : (c7_claimed_context c7_conversation c7_character).length = 23 := by rfl
  rw [h, h2] at h1
  exact absurd h1 (by decide)

theorem drop_length_sub_reverse {α : Type} (l : List α) (n : Nat) :
    l.drop (l.length - n) = (l.reverse.take n).reverse := by
  rw [← List.reverse_reverse (l.drop (l.length - n)), List.reverse_drop]
  by_cases h : n ≤ l.length
  · have hn : l.length - (l.length - n) = n := by omega
    rw [hn]
  · have h0 : l.length - n = 0 := by omega
    rw [h0, Nat.sub_zero,
      List.take_of_length_le (by simp),
      List.take_of_length_le (by simp; omega)]

theorem filterMap_role_of_no_system (ms : List Message)
    (h : ∀ m ∈ ms, m.role ≠ .system) :
    ms.filterMap (fun m =>
      match m.role with
      | .user => some ⟨"user", m.content⟩
      | .assistant => some ⟨"assistant", m.content⟩
      | .system => none) =
    ms.map (fun m => (⟨role_string m.role, m.content⟩ : ChatMsg)) := by
  induction ms with
  | nil => rfl
  | cons m ms ih =>
    have hm := h m (by simp)
    have ih' := ih (fun x hx => h x (List.mem_cons_of_mem m hx))
    cases hr : m.role with
    | user => simp [List.filterMap_cons, hr, role_string, ih']
    | assistant => simp [List.filterMap_cons, hr, role_string, ih']
    | system => exact absurd hr hm

/-- Amended claim C7: the contextual message list is the system persona
prompt (enhanced with the fixed behaviour guidelines) followed by
exactly the most recent 20 messages — not turns — of the conversation's
history, older messages dropped without summarization. -/
theorem c7_context_window_amended (conversation : Conversation) (character : Character)
    (h : ∀ m ∈ conversation.messages, m.role ≠ .system) :
    build_chat_messages conversation character =
      ⟨"system", enhanced_prompt character⟩ ::
        ((conversation.messages.reverse.take 20).reverse.map
          (fun m => (⟨role_string m.role, m.content⟩ : ChatMsg))) := by
  unfold build_chat_messages
  rw [drop_length_sub_reverse]
  exact congrArg (List.cons ⟨"system", enhanced_prompt character⟩)
    (filterMap_role_of_no_system _ (fun m hm =>
      h m (List.mem_reverse.mp (List.mem_of_mem_take (List.mem_reverse.mp hm)))))

/-- A two-message conversation used to witness the amended C7. -/
def c7_witness_conversation : Conversation :=
  { conversation_id := "c", user_id := "u", character_id := "ch", title := "t",
    messages :=
      [⟨"m0", "c", .user, "hi", .text, none, [], 0⟩,
       ⟨"m1", "c", .assistant, "yo", .text, none, [], 1⟩],
    created_at := 0, updated_at := 1, is_active := true, metadata := [] }

/-- Witness for the amended C7 at a concrete conversation. -/
theorem c7_context_window_amended_witness :
    build_chat_messages c7_witness_conversation c7_character =
      ⟨"system", enhanced_prompt c7_character⟩ ::
        ((c7_witness_conversation.messages.reverse.take 20).reverse.map
          (fun m => (⟨role_string m.role, m.content⟩ : ChatMsg))) :=
  c7_context_window_amended c7_witness_conversation c7_character (by decide)

/-- Claim C10: on an existing conversation, `add_message` appends
exactly one message — carrying the given role, content, type and the
fresh id — to the end of the message list and refreshes `updated_at`,
while every other conversation field and all previously stored
messages are unchanged. -/
theorem c10_add_message_frame (store : Store) (conversation_id : String)
    (c : Conversation) (role : MessageRole) (content : String)
    (message_type : MessageType) (audio_url : Option String)
    (metadata : Option (List (String × String))) (fresh_id : String) (now : Nat)
    (h : get_conversation store conversation_id = some c) :
    (add_message store conversation_id role content message_type audio_url metadata
        fresh_id now true).1 =
      some { message_id := fresh_id, conversation_id := conversation_id, role := role,
             content := content, message_type := message_type, audio_url := audio_url,
             metadata := metadata.getD [], timestamp := now } ∧
    ∃ c', get_conversation
        (add_message store conversation_id role content message_type audio_url metadata
          fresh_id now true).2 conversation_id = some c' ∧
      c'.messages = c.messages ++
        [{ message_id := fresh_id, conversation_id := conversation_id, role := role,
           content := content, message_type := message_type, audio_url := audio_url,
           metadata := metadata.getD [], timestamp := now }] ∧
      c'.updated_at = now ∧
      c'.conversation_id = c.conversation_id ∧
      c'.user_id = c.user_id ∧
      c'.character_id = c.character_id ∧
      c'.title = c.title ∧
      c'.created_at = c.created_at ∧
      c'.is_active = c.is_active ∧
      c'.messages.take c.messages.length = c.messages := by
  constructor
  · simp [add_message, h]
  · refine ⟨{ c with
        messages := c.messages ++
          [{ message_id := fresh_id, conversation_id := conversation_id, role := role,
             content := content, message_type := message_type, audio_url := audio_url,
             metadata := metadata.getD [], timestamp := now }],
        updated_at := now }, ?_, rfl, rfl, rfl, rfl, rfl, rfl, rfl, rfl,
      List.take_left c.messages _⟩
    have h' : lookupA conversation_id store.convs = some c := h
    simp [add_message, get_conversation, h', lookupA_setA]

/-- The existing message of the C10 witness conversation. -/
def c10_message0 : Message := ⟨"m0", "c", .user, "hello", .text, none, [], 5⟩

/-- The C10 witness conversation, holding one prior message. -/
def c10_conversation : Conversation := ⟨"c", "u", "ch", "t", [c10_message0], 1, 2, true, []⟩

/-- The C10 witness store. -/
def c10_store : Store := ⟨[("c", c10_conversation)], [], []⟩

/-- Witness for C10 at a concrete store and conversation. -/
theorem c10_add_message_witness :
    (add_message c10_store "c" .assistant "reply" .text none none "m1" 9 true).1 =
      some { message_id := "m1", conversation_id := "c", role := .assistant,
             content := "reply", message_type := .text, audio_url := none,
             metadata := (none : Option (List (String × String))).getD [],
             timestamp := 9 } ∧
    ∃ c', get_conversation
        (add_message c10_store "c" .assistant "reply" .text none none "m1" 9 true).2
        "c" = some c' ∧
      c'.messages = c10_conversation.messages ++
        [{ message_id := "m1", conversation_id := "c", role := .assistant,
           content := "reply", message_type := .text, audio_url := none,
           metadata := (none : Option (List (String × String))).getD [],
           timestamp := 9 }] ∧
      c'.updated_at = 9 ∧
      c'.conversation_id = c10_conversation.conversation_id ∧
      c'.user_id = c10_conversation.user_id ∧
      c'.character_id = c10_conversation.character_id ∧
      c'.title = c10_conversation.title ∧
      c'.created_at = c10_conversation.created_at ∧
      c'.is_active = c10_conversation.is_active ∧
      c'.messages.take c10_conversation.messages.length = c10_conversation.messages :=
  c10_add_message_frame c10_store "c" c10_conversation .assistant "reply" .text
    none none "m1" 9 rfl

/- ===================================================================
   Claim C6: voice-chat turn with failing speech synthesis.
   `AudioService.text_to_speech` (audio_service.py 36-92) is embedded
   from the source; the orchestrating `process_voice_chat` is only
   called (app.py 295-324), never defined, in the source tree, so it is
   modelled from the spec.
   =================================================================== -/

/-- The result dict shape used by `text_to_speech` and by the
underlying `dashscope.speech_synthesis` call; audio bytes are modelled
as lists of byte values. -/
structure TTSDict where
  success : Bool
  audio_data : Option (List Nat)
  audio_url : Option String
  error : Option String
  text : Option String
  voice : Option String
  format : Option String
  deriving DecidableEq

/-- `AudioService.text_to_speech` (audio_service.py 36-92).  `synth` is
the dict returned by `dashscope.speech_synthesis`; `synth_raises`
carries the message of an exception that call raises (caught at 87-92);
`save_url` is what `_save_audio_file` would return (`none` both when
saving is skipped and when it fails). -/
def text_to_speech (synth : TTSDict) (synth_raises : Option String)
    (save_url : Option String) (text voice fmt : String) (save_file : Bool) :
    TTSDict :=
  match synth_raises with
  | some e =>
    { success := false, audio_data := none, audio_url := none, error := some e,
      text := none, voice := none, format := none }
  | none =>
    if !synth.success then
      synth
    else
      let audio_data := synth.audio_data.getD []
      if audio_data = [] then
        { success := false, audio_data := none, audio_url := none,
          error := some "未获取到音频数据", text := none, voice := none, format := none }
      else
        let audio_url := if save_file then save_url else none
        { success := true, audio_data := some audio_data, audio_url := audio_url,
          error := none, text := some text, voice := some voice, format := some fmt }

/-- The composite result of one voice-chat turn. -/
structure VoiceChatResult where
  success : Bool
  reply_text : Option String
  reply_audio_url : Option String
  warning : Option String
  error : Option String
  deriving DecidableEq

/-- Modelled from the spec: `AudioService.process_voice_chat` is
invoked by the `/api/audio/voice-chat` route (app.py 295-324) but its
definition is absent from the source tree.  Per spec §4.4, the turn
pipeline recognises the utterance, obtains the chat reply (the chat
stage never fails outward — see `ConversationService.chat`), then calls
speech synthesis on the reply text; per step 6, a synthesis failure
still yields success with `reply_text` populated, `reply_audio_url`
null and a non-fatal `warning` describing the synthesis error. -/
def process_voice_chat (transcribed : Except String String)
    (chat_response : ChatResponse) (tts : TTSDict) : VoiceChatResult :=
  match transcribed with
  | .error e =>
    { success := false, reply_text := none, reply_audio_url := none,
      warning := none, error := some e }
  | .ok _ =>
    if tts.success then
      { success := true, reply_text := some chat_response.response,
        reply_audio_url := tts.audio_url, warning := none, error := none }
    else
      { success := true, reply_text := some chat_response.response,
        reply_audio_url := none,
        warning := some ("语音合成失败：" ++ tts.error.getD ""), error := none }

/-- Claim C6: when the chat stage has produced a reply but speech
synthesis fails, the turn still succeeds, with the reply text
populated, no audio url, and a warning carrying the synthesis error —
text delivery is never blocked by audio delivery failure. -/
theorem c6_synthesis_failure_degrades_gracefully (transcript : String)
    (chat_response : ChatResponse) (synth : TTSDict) (synth_raises : Option String)
    (save_url : Option String) (text voice fmt : String) (save_file : Bool) (e : String)
    (h : (text_to_speech synth synth_raises save_url text voice fmt save_file).success
      = false)
    (he : (text_to_speech synth synth_raises save_url text voice fmt save_file).error
      = some e) :
    process_voice_chat (.ok transcript) chat_response
        (text_to_speech synth synth_raises save_url text voice fmt save_file) =
      { success := true, reply_text := some chat_response.response,
        reply_audio_url := none, warning := some ("语音合成失败：" ++ e),
        error := none } := by
  simp [process_voice_chat, h, he]

/-- Witness for C6: a concrete synthesis-service failure dict. -/
theorem c6_synthesis_failure_witness :
    process_voice_chat (.ok "你好") ⟨"c", "m", "你好呀", none, none, 3⟩
        (text_to_speech
          ⟨false, none, none, some "合成服务不可用", none, none, none⟩
          none none "你好呀" "zhifeng" "wav" true) =
      { success := true, reply_text := some "你好呀", reply_audio_url := none,
        warning := some ("语音合成失败：" ++ "合成服务不可用"), error := none } :=
  c6_synthesis_failure_degrades_gracefully "你好" ⟨"c", "m", "你好呀", none, none, 3⟩
    ⟨false, none, none, some "合成服务不可用", none, none, none⟩
    none none "你好呀" "zhifeng" "wav" true "合成服务不可用" rfl rfl

end RoleVerse
